import Mathlib

/-!
Verification development for the EV-Secure charging-station firmware.

The definitions below are a shallow embedding of the C sources:
`evsecure-firmware/main/main.c`, `evsecure-firmware/main/evsecure_config.h`,
`evsecure-firmware/components/tflite_micro/tflite_micro.c`,
`evsecure-firmware/components/ocpp_proxy/ocpp_proxy.c`,
`Arduino/RelayController.h`, `Arduino/MLModel.h` and
`Arduino/EV_Secure_ESP32S3_Complete/EV_Secure_Config.h`.

C `float` values are modelled by the type `EF`: either an exact rational
(`EF.fin`), one of the two infinities, or NaN, with the IEEE-754 rules for
special-value propagation and comparisons.  Rounding of finite values is not
modelled (finite arithmetic is exact); none of the properties proved here
depends on rounding, only on special-value propagation, the sign of results
and comparisons whose operands are far from the thresholds involved.
Machine counters (`uint32_t`) are modelled as `Nat`, with an explicit
`% 2^32` where the C code performs unsigned wrap-around arithmetic.
-/

/-- Model of a C `float`: an exact finite rational, an infinity, or NaN. -/
inductive EF where
  | fin : ℚ → EF
  | pinf : EF
  | ninf : EF
  | nan : EF
deriving DecidableEq

namespace EF

/-- IEEE negation. -/
def neg : EF → EF
  | fin q => fin (-q)
  | pinf => ninf
  | ninf => pinf
  | nan => nan

/-- IEEE addition: NaN propagates, `(+∞) + (−∞)` is NaN. -/
def add : EF → EF → EF
  | nan, _ => nan
  | _, nan => nan
  | pinf, ninf => nan
  | ninf, pinf => nan
  | pinf, _ => pinf
  | _, pinf => pinf
  | ninf, _ => ninf
  | _, ninf => ninf
  | fin a, fin b => fin (a + b)

/-- IEEE subtraction, via negation. -/
def sub (x y : EF) : EF := add x (neg y)

/-- IEEE multiplication: NaN propagates, `0 × ∞` is NaN. -/
def mul : EF → EF → EF
  | nan, _ => nan
  | _, nan => nan
  | fin a, fin b => fin (a * b)
  | fin a, pinf => if 0 < a then pinf else if a < 0 then ninf else nan
  | fin a, ninf => if 0 < a then ninf else if a < 0 then pinf else nan
  | pinf, fin b => if 0 < b then pinf else if b < 0 then ninf else nan
  | ninf, fin b => if 0 < b then ninf else if b < 0 then pinf else nan
  | pinf, pinf => pinf
  | pinf, ninf => ninf
  | ninf, pinf => ninf
  | ninf, ninf => pinf

/-- IEEE division.  A nonzero finite value divided by (positive) zero gives a
signed infinity; `0/0`, `∞/∞` give NaN.  Negative zero is not modelled (the
divisors appearing in the sources are the literal constants of the code). -/
def div : EF → EF → EF
  | nan, _ => nan
  | _, nan => nan
  | fin a, fin b =>
      if b = 0 then (if a = 0 then nan else if 0 < a then pinf else ninf)
      else fin (a / b)
  | fin _, pinf => fin 0
  | fin _, ninf => fin 0
  | pinf, fin b => if 0 ≤ b then pinf else ninf
  | ninf, fin b => if 0 ≤ b then ninf else pinf
  | pinf, pinf => nan
  | pinf, ninf => nan
  | ninf, pinf => nan
  | ninf, ninf => nan

/-- IEEE `<`: any comparison with NaN is false. -/
def blt : EF → EF → Bool
  | ninf, fin _ => true
  | ninf, pinf => true
  | fin _, pinf => true
  | fin a, fin b => decide (a < b)
  | _, _ => false

/-- IEEE `≤`: any comparison with NaN is false. -/
def ble : EF → EF → Bool
  | ninf, fin _ => true
  | ninf, pinf => true
  | ninf, ninf => true
  | fin _, pinf => true
  | fin a, fin b => decide (a ≤ b)
  | pinf, pinf => true
  | _, _ => false

/-- IEEE `>` as used by C `x > y`. -/
def bgt (x y : EF) : Bool := blt y x

/-- IEEE `≥` as used by C `x >= y`. -/
def bge (x y : EF) : Bool := ble y x

/-- C `fabsf`. -/
def fabs : EF → EF
  | fin q => fin |q|
  | pinf => pinf
  | ninf => pinf
  | nan => nan

/-- C99 `fminf`: if exactly one argument is NaN, the other is returned. -/
def fmin : EF → EF → EF
  | nan, y => y
  | x, nan => x
  | x, y => if ble x y then x else y

/-- True exactly on finite values (C `isfinite`). -/
def isFinite : EF → Bool
  | fin _ => true
  | _ => false

end EF

/-! ## Configuration constants (`evsecure_config.h`) -/

def RULE_SCORE_WEIGHT : ℚ := 3/5
def ML_SCORE_WEIGHT : ℚ := 2/5
def WARNING_THRESHOLD : ℚ := 1/2
def CRITICAL_THRESHOLD : ℚ := 4/5
def REMOTE_STOP_BURST_THRESHOLD : Nat := 3
def MALFORMED_BURST_THRESHOLD : Nat := 2
def THD_I_MULTIPLIER_THRESHOLD : ℚ := 3/2
def OCPP_RATE_THRESHOLD : ℚ := 3/5
def BASELINE_THD_I : ℚ := 2
def BASELINE_OCPP_RATE : ℚ := 5
def CONTACTOR_ACTIVE_LOW : Bool := true

/-- Feature vector (`feature_vector_t` in `evsecure_config.h`):
float fields are `EF`, `uint32_t` counters are `Nat`, flags are `Bool`. -/
structure feature_vector_t where
  v_rms : EF
  i_rms : EF
  p_kw : EF
  pf : EF
  thd_v : EF
  thd_i : EF
  dvdt : EF
  didt : EF
  ocpp_rate : EF
  remote_stop_cnt : Nat
  malformed : Nat
  out_of_seq : Nat
  fw_ok : Bool
  tamper : Bool
  temp_c : EF
deriving DecidableEq

/-- Alert levels (`alert_level_t`). -/
inductive alert_level_t where
  | info
  | warning
  | critical
deriving DecidableEq

/-- Alert record (`alert_t`), restricted to the fields the scorer computes
from the feature vector (session id and timestamp are copied from ambient
state and are not relevant to the claims). -/
structure alert_t where
  level : alert_level_t
  score : EF
deriving DecidableEq

/-! ## TFLite-micro placeholder inference (`tflite_micro.c`) -/

/-- Per-feature means (`feature_means` array, lines 17–33). -/
def feature_means : Nat → ℚ
  | 0 => 230
  | 1 => 15
  | 2 => 7/2
  | 3 => 19/20
  | 4 => 5/2
  | 5 => 7/2
  | 6 => 0
  | 7 => 0
  | 8 => 5
  | 9 => 0
  | 10 => 0
  | 11 => 0
  | 12 => 1
  | 13 => 0
  | 14 => 25
  | _ => 0

/-- Per-feature standard deviations (`feature_stds` array, lines 35–51).
Note the literal `0.0f` entries at indices 12 (`fw_ok`) and 13 (`tamper`). -/
def feature_stds : Nat → ℚ
  | 0 => 20
  | 1 => 5
  | 2 => 3/2
  | 3 => 1/20
  | 4 => 1
  | 5 => 3/2
  | 6 => 10
  | 7 => 5
  | 8 => 2
  | 9 => 1
  | 10 => 1
  | 11 => 1
  | 12 => 0
  | 13 => 0
  | 14 => 10
  | _ => 1

/-- The `input_features` array filled in `tflite_micro_inference`
(lines 97–112): counters and flags are converted to float. -/
def input_feature (f : feature_vector_t) : Nat → EF
  | 0 => f.v_rms
  | 1 => f.i_rms
  | 2 => f.p_kw
  | 3 => f.pf
  | 4 => f.thd_v
  | 5 => f.thd_i
  | 6 => f.dvdt
  | 7 => f.didt
  | 8 => f.ocpp_rate
  | 9 => .fin f.remote_stop_cnt
  | 10 => .fin f.malformed
  | 11 => .fin f.out_of_seq
  | 12 => .fin (if f.fw_ok then 1 else 0)
  | 13 => .fin (if f.tamper then 1 else 0)
  | 14 => f.temp_c
  | _ => .fin 0

/-- The normalization loop (lines 114–118):
`normalized_features[i] = (input_features[i] - feature_means[i]) / feature_stds[i]`. -/
def normalized_feature (f : feature_vector_t) (i : Nat) : EF :=
  EF.div (EF.sub (input_feature f i) (.fin (feature_means i))) (.fin (feature_stds i))

/-- The placeholder encoder weight `0.1f + i * 0.05f + j * 0.01f` (line 130). -/
def enc_weight (i j : Nat) : ℚ := 1/10 + i * (1/20) + j * (1/100)

/-- The "encoding" loop (lines 125–132): for each of the 8 latent entries,
a running float sum over the 15 normalized features, in program order. -/
def encoded (f : feature_vector_t) (i : Nat) : EF :=
  (List.range 15).foldl
    (fun s j => EF.add s (EF.mul (normalized_feature f j) (.fin (enc_weight i j))))
    (.fin 0)

/-- The "decoding" loop (lines 135–142), same placeholder weight shape. -/
def decoded (f : feature_vector_t) (i : Nat) : EF :=
  (List.range 8).foldl
    (fun s j => EF.add s (EF.mul (encoded f j) (.fin (enc_weight i j))))
    (.fin 0)

/-- The reconstruction-error accumulation (lines 145–150):
sum of squared differences over the 15 features, divided by 15. -/
def mse_value (f : feature_vector_t) : EF :=
  EF.div
    ((List.range 15).foldl
      (fun s i =>
        EF.add s
          (EF.mul (EF.sub (normalized_feature f i) (decoded f i))
                  (EF.sub (normalized_feature f i) (decoded f i))))
      (.fin 0))
    (.fin 15)

/-- `tflite_micro_inference` (line 153): `fminf(mse / 2.0f, 1.0f)`.
The `ESP_OK`/pointer checks are modelled in `ml_anomaly_step`. -/
def tflite_micro_inference (f : feature_vector_t) : EF :=
  EF.fmin (EF.div (mse_value f) (.fin 2)) (.fin 1)

/-! ## Anomaly scorer (`ml_anomaly_task`, `main.c` lines 242–298) -/

/-- The rule-based score accumulation (`main.c` lines 247–269): remote-stop
burst `+0.6`, malformed burst `+0.4`, THD/OCPP-rate masking correlation
`+0.5`, and the tamper / firmware-integrity override that assigns `1.0`.
There is no clamping step. -/
def rule_score (f : feature_vector_t) : ℚ :=
  let s : ℚ := 0
  let s := if REMOTE_STOP_BURST_THRESHOLD < f.remote_stop_cnt then s + 3/5 else s
  let s := if MALFORMED_BURST_THRESHOLD < f.malformed then s + 2/5 else s
  let s := if EF.bgt f.thd_i (.fin (BASELINE_THD_I * THD_I_MULTIPLIER_THRESHOLD)) &&
              EF.blt f.ocpp_rate (.fin (BASELINE_OCPP_RATE * OCPP_RATE_THRESHOLD))
           then s + 1/2 else s
  if f.tamper || !f.fw_ok then 1 else s

/-- Score fusion (`main.c` line 272):
`RULE_SCORE_WEIGHT * rule_score + ML_SCORE_WEIGHT * ml_score`, in float. -/
def combined_score (ruleS : ℚ) (mlS : EF) : EF :=
  EF.add (EF.mul (.fin RULE_SCORE_WEIGHT) (.fin ruleS)) (EF.mul (.fin ML_SCORE_WEIGHT) mlS)

/-- Alert creation (`main.c` lines 275–287): an alert is queued when the
combined score reaches the warning threshold; its level is Critical when the
combined score also reaches the critical threshold, else Warning. -/
def emit_alert (c : EF) : Option alert_t :=
  if EF.bge c (.fin WARNING_THRESHOLD) then
    some { level := if EF.bge c (.fin CRITICAL_THRESHOLD) then .critical else .warning,
           score := c }
  else none

/-- One scoring pass of `ml_anomaly_task` on a feature vector, with the
`ml_score` produced by inference taken as a parameter (in the task it is the
output of `tflite_micro_inference`): returns the rule score, the combined
score, and the alert, if any. -/
def scoreFusion (f : feature_vector_t) (mlS : EF) : ℚ × EF × Option alert_t :=
  let r := rule_score f
  let c := combined_score r mlS
  (r, c, emit_alert c)

/-- One iteration of `ml_anomaly_task` for a dequeued vector: inference runs
only if the model is initialized (`tflite_micro_inference` returns
`ESP_ERR_INVALID_STATE` otherwise and the whole scoring block is skipped);
there is no other validation of the vector. -/
def ml_anomaly_step (model_ready : Bool) (f : feature_vector_t) :
    Option (ℚ × EF × Option alert_t) :=
  if model_ready then some (scoreFusion f (tflite_micro_inference f)) else none

/-! ## Safety state machine (`main.c`) -/

/-- Safety states (`safety_state_t`). -/
inductive safety_state_t where
  | idle
  | handshake
  | precharge
  | charging
  | suspicious
  | lockdown
deriving DecidableEq

/-- Externally visible side effects of the safety controller, in the order
the code performs them: a write of the shared `current_safety_state`
variable, or a `gpio_set_level` on the contactor control pin. -/
inductive safety_action where
  | write_state : safety_state_t → safety_action
  | set_contactor : Nat → safety_action
deriving DecidableEq

/-- `update_safety_state` (`main.c` lines 457–463): assigns the global state
only when it differs from the current one. -/
def update_safety_state (s new : safety_state_t) : safety_state_t × List safety_action :=
  if s ≠ new then (new, [.write_state new]) else (s, [])

/-- The level written to the contactor pin by the critical-alert branch
(`main.c` line 326): `CONTACTOR_ACTIVE_LOW ? 0 : 1`. -/
def contactor_open_level : Nat := if CONTACTOR_ACTIVE_LOW then 0 else 1

/-- One iteration of `safety_control_task` on a dequeued alert (`main.c`
lines 310–335), with the side effects recorded in program order: a Warning
alert moves Charging to Suspicious; a Critical alert calls
`update_safety_state(SAFETY_STATE_LOCKDOWN)` first and only then drives the
contactor pin. -/
def safety_control_step (s : safety_state_t) (lvl : alert_level_t) :
    safety_state_t × List safety_action :=
  match lvl with
  | .warning => if s = .charging then update_safety_state s .suspicious else (s, [])
  | .critical =>
      let r := update_safety_state s .lockdown
      (r.1, r.2 ++ [.set_contactor contactor_open_level])
  | .info => (s, [])

/-- OCPP message types (`ocpp_msg_type_t` in `evsecure_config.h`): the
underlying C values are 0,1,2,3,4 in declaration order, so the value a
zero-initialized message carries is `start_transaction`. -/
inductive ocpp_msg_type_t where
  | start_transaction
  | meter_values
  | remote_stop_transaction
  | update_firmware
  | unknown
deriving DecidableEq

/-- The message switch in `ocpp_monitor_task` (`main.c` lines 200–213):
`OCPP_MSG_START_TRANSACTION` unconditionally requests
`update_safety_state(SAFETY_STATE_HANDSHAKE)`; every other type leaves the
safety state untouched (the remote-stop and firmware cases are empty). -/
def ocpp_monitor_step (s : safety_state_t) (t : ocpp_msg_type_t) :
    safety_state_t × List safety_action :=
  match t with
  | .start_transaction => update_safety_state s .handshake
  | _ => (s, [])

/-! ## Relay controller (`Arduino/RelayController.h`) -/

/-- Relay states (`RelayState`). -/
inductive RelayState where
  | off
  | on
  | fault
  | emergency_stop
deriving DecidableEq

/-- Safety limits of `RelayController.h` (lines 55–58) and the thresholds it
uses from `EV_Secure_Config.h`. -/
def MAX_CURRENT_THRESHOLD : ℚ := 35
def OVERCURRENT_TIME_MS : Nat := 1000
def FAULT_RESET_TIME_MS : Nat := 5000
def VOLTAGE_MIN_THRESHOLD : ℚ := 200
def VOLTAGE_MAX_THRESHOLD : ℚ := 250
def CURRENT_MAX_THRESHOLD : ℚ := 30
def TEMP_MAX_THRESHOLD : ℚ := 60
def FREQUENCY_NOMINAL : ℚ := 50
def FREQUENCY_TOLERANCE : ℚ := 2

/-- The static state of `RelayController` (the `_currentState`, `_status`,
`_emergencyStopActive`, overcurrent tracking and fault bookkeeping members).
Times are `millis()` values in milliseconds. -/
structure RC where
  inited : Bool
  currentState : RelayState
  emergencyStopActive : Bool
  overcurrentDetected : Bool
  overcurrentStartTime : Nat
  lastEmergencyStopTime : Nat
  lastStateChange : Nat
  faultCount : Nat
  faultHistory : List String
  manualOverrideEnabled : Bool
  safetyLimitsEnabled : Bool
  lastCurrent : ℚ
  lastVoltage : ℚ
deriving DecidableEq

/-- `_logFault`: increments the fault count and appends to the history. -/
def RC.logFault (rc : RC) (reason : String) : RC :=
  { rc with faultCount := rc.faultCount + 1, faultHistory := rc.faultHistory ++ [reason] }

/-- `_checkSafetyInterlocks` (lines 384–396): fails while the emergency stop
is active or after more than 5 faults. -/
def RC.checkSafetyInterlocks (rc : RC) : Bool :=
  if rc.emergencyStopActive then false
  else if 5 < rc.faultCount then false
  else true

/-- `emergencyStop` (lines 222–244): drives the relay pin off, latches
`RELAY_EMERGENCY_STOP`, records the time, and logs a fault. -/
def RC.emergencyStop (rc : RC) (now : Nat) : RC × Bool :=
  if !rc.inited then (rc, false)
  else
    (({ rc with currentState := .emergency_stop,
                emergencyStopActive := true,
                lastEmergencyStopTime := now }).logFault "Emergency stop activated", true)

/-- `resetEmergencyStop` (lines 246–268): returns true immediately when no
stop is active; otherwise requires the 5 s cooldown and the interlock check
before clearing the latch.  Note that `_checkSafetyInterlocks` itself tests
`_emergencyStopActive`, which is still true at that point. -/
def RC.resetEmergencyStop (rc : RC) (now : Nat) : RC × Bool :=
  if !rc.emergencyStopActive then (rc, true)
  else if now - rc.lastEmergencyStopTime < FAULT_RESET_TIME_MS then (rc, false)
  else if !rc.checkSafetyInterlocks then (rc, false)
  else ({ rc with emergencyStopActive := false }, true)

/-- `_handleOvercurrent` (lines 398–410): starts the overcurrent timer on
first detection; trips `emergencyStop` (and logs) once the overcurrent has
persisted for more than `OVERCURRENT_TIME_MS`. -/
def RC.handleOvercurrent (rc : RC) (current : ℚ) (now : Nat) : RC :=
  let rc1 := if !rc.overcurrentDetected then
               { rc with overcurrentDetected := true, overcurrentStartTime := now }
             else rc
  if OVERCURRENT_TIME_MS < now - rc1.overcurrentStartTime then
    ((rc1.emergencyStop now).1).logFault "Overcurrent protection triggered"
  else rc1

/-- `_handleUndervoltage` (lines 412–415): logs a fault only. -/
def RC.handleUndervoltage (rc : RC) : RC :=
  rc.logFault "Undervoltage"

/-- `_handleOvervoltage` (lines 417–421): emergency stop with no grace. -/
def RC.handleOvervoltage (rc : RC) (now : Nat) : RC :=
  ((rc.emergencyStop now).1).logFault "Overvoltage protection triggered"

/-- `checkSafetyLimits` (lines 290–315): one per-sample pass over the
current/voltage limits.  Overcurrent above `MAX_CURRENT_THRESHOLD` feeds the
grace-period logic; a sample at or below the threshold clears the detection
flag and resets the timer to 0. -/
def RC.checkSafetyLimits (rc : RC) (current voltage : ℚ) (now : Nat) : RC :=
  if !rc.safetyLimitsEnabled then rc
  else
    let rc := { rc with lastCurrent := current, lastVoltage := voltage }
    let rc := if MAX_CURRENT_THRESHOLD < current then rc.handleOvercurrent current now
              else { rc with overcurrentDetected := false, overcurrentStartTime := 0 }
    let rc := if voltage < VOLTAGE_MIN_THRESHOLD then rc.handleUndervoltage else rc
    if VOLTAGE_MAX_THRESHOLD < voltage then rc.handleOvervoltage now else rc

/-- The controller state right after `init()` (lines 128–158). -/
def RC.initial : RC :=
  { inited := true
    currentState := .off
    emergencyStopActive := false
    overcurrentDetected := false
    overcurrentStartTime := 0
    lastEmergencyStopTime := 0
    lastStateChange := 0
    faultCount := 0
    faultHistory := []
    manualOverrideEnabled := false
    safetyLimitsEnabled := true
    lastCurrent := 0
    lastVoltage := 0 }

/-! ## Arduino rule-based threat score (`MLModel.h` lines 181–208) -/

/-- `MLModel::_ruleBasedThreatScore`: accumulates the five electrical
triggers and clamps the total at 1.0. -/
def ruleBasedThreatScore (currentA voltageV powerW freqHz tempC : EF) : ℚ :=
  let s : ℚ := 0
  let s := if EF.bgt (EF.fabs currentA) (.fin CURRENT_MAX_THRESHOLD) then s + 7/20 else s
  let s := if EF.blt voltageV (.fin VOLTAGE_MIN_THRESHOLD) ||
              EF.bgt voltageV (.fin VOLTAGE_MAX_THRESHOLD) then s + 7/20 else s
  let s := if EF.bgt (EF.fabs (EF.sub freqHz (.fin FREQUENCY_NOMINAL)))
                     (.fin FREQUENCY_TOLERANCE) then s + 3/20 else s
  let s := if EF.bgt tempC (.fin TEMP_MAX_THRESHOLD) then s + 3/20 else s
  let s := if EF.bgt powerW (.fin (CURRENT_MAX_THRESHOLD * VOLTAGE_MAX_THRESHOLD)) then s + 1/10 else s
  if 1 < s then 1 else s

/-! ## OCPP proxy (`ocpp_proxy.c`) -/

/-- Metrics kept by the proxy (`ocpp_metrics_t`). -/
structure ocpp_metrics_t where
  remote_stop_count : Nat
  malformed_count : Nat
  out_of_sequence_count : Nat
  last_message_time : Nat
deriving DecidableEq

/-- A parsed OCPP message (`ocpp_message_t`). -/
structure ocpp_message_t where
  type : ocpp_msg_type_t
  session_id : Option String
  payload : String
  malformed : Bool
  out_of_sequence : Bool
  timestamp : Nat
deriving DecidableEq

/-- The result of `cJSON_Parse` on an inbound frame, as far as the handler
inspects it: either the frame is unparsable, or it parses and optionally
carries a numeric `messageTypeId`, a string `sessionId`, and a numeric
`messageId`. -/
inductive frame_parse where
  | unparsable
  | parsed (msgTypeId : Option Int) (sessionId : Option String) (msgId : Option Int)
deriving DecidableEq

/-- The `messageTypeId` switch (`ocpp_proxy.c` lines 49–210). -/
def classify_msg_type (n : Int) : ocpp_msg_type_t :=
  if n = 2 ∨ n = 8 ∨ n = 13 ∨ n = 18 ∨ n = 23 ∨ n = 28 ∨ n = 33 ∨ n = 38 ∨ n = 43 ∨ n = 48 then
    .start_transaction
  else if n = 3 ∨ n = 9 ∨ n = 14 ∨ n = 19 ∨ n = 24 ∨ n = 29 ∨ n = 34 ∨ n = 39 ∨ n = 44 ∨ n = 49 then
    .remote_stop_transaction
  else if n = 4 ∨ n = 11 ∨ n = 16 ∨ n = 21 ∨ n = 26 ∨ n = 31 ∨ n = 36 ∨ n = 41 ∨ n = 46 then
    .meter_values
  else .unknown

/-- The sequence-tracking step (`ocpp_proxy.c` lines 233–241): when the
frame carries a numeric `messageId` `s`, the out-of-sequence flag is set iff
`(uint32_t)s` differs from `message_sequence + 1` (uint32 arithmetic), and
`message_sequence` is then updated to `(uint32_t)s` in either case.
The C code performs this read on the cJSON object after `cJSON_Delete` has
already freed it (line 225 versus line 234); this definition gives the
values the code manifestly intends to read. -/
def seq_update (last : Nat) (msgId : Option Int) : Nat × Bool :=
  match msgId with
  | none => (last, false)
  | some s =>
      let su : Nat := (s % (2 ^ 32 : Int)).toNat
      if su ≠ (last + 1) % 2 ^ 32 then (su, true) else (su, false)

/-- The `WEBSOCKET_EVENT_DATA` branch of `ocpp_websocket_event_handler`
(`ocpp_proxy.c` lines 37–252) for one inbound frame: builds the
zero-initialized `ocpp_message_t`, stamps it, classifies it (counting remote
stops), marks and counts malformed frames, tracks the sequence number, and
hands the message on (it is then posted to the queue, never discarded before
that point, and the handler returns `ESP_OK`).  Returns the message, the
updated metrics, and the updated `message_sequence`. -/
def handle_frame (raw : String) (p : frame_parse) (ts : Nat)
    (m : ocpp_metrics_t) (lastSeq : Nat) : ocpp_message_t × ocpp_metrics_t × Nat :=
  let msg0 : ocpp_message_t :=
    { type := .start_transaction, session_id := none, payload := "",
      malformed := false, out_of_sequence := false, timestamp := ts }
  match p with
  | .unparsable =>
      let msg := { msg0 with malformed := true, payload := raw }
      let m := { m with malformed_count := m.malformed_count + 1, last_message_time := ts }
      (msg, m, lastSeq)
  | .parsed msgTypeId sessionId msgId =>
      let tm : ocpp_msg_type_t × ocpp_metrics_t × Bool :=
        match msgTypeId with
        | some n =>
            (classify_msg_type n,
             if classify_msg_type n = .remote_stop_transaction then
               { m with remote_stop_count := m.remote_stop_count + 1 }
             else m,
             false)
        | none => (msg0.type, { m with malformed_count := m.malformed_count + 1 }, true)
      let sq := seq_update lastSeq msgId
      let msg := { msg0 with type := tm.1, malformed := tm.2.2, session_id := sessionId,
                             payload := raw, out_of_sequence := sq.2 }
      let m1 := tm.2.1
      let m2 := if sq.2 then
                  { m1 with out_of_sequence_count := m1.out_of_sequence_count + 1 }
                else m1
      (msg, { m2 with last_message_time := ts }, sq.1)

/-- A run of the sequence tracker over a list of numeric message ids:
returns the final `message_sequence` and how many times the out-of-sequence
counter was incremented. -/
def seq_run (last : Nat) (ids : List Int) : Nat × Nat :=
  ids.foldl
    (fun p s =>
      let r := seq_update p.1 (some s)
      (r.1, p.2 + if r.2 then 1 else 0))
    (last, 0)

/-! ## Special-value propagation lemmas for `EF` -/

theorem EF.nan_add (y : EF) : EF.add .nan y = .nan := by
  cases y <;> rfl

theorem EF.add_nan (x : EF) : EF.add x .nan = .nan := by
  cases x <;> rfl

theorem EF.nan_mul (y : EF) : EF.mul .nan y = .nan := by
  cases y <;> rfl

theorem EF.mul_nan (x : EF) : EF.mul x .nan = .nan := by
  cases x <;> rfl

theorem EF.sub_nan (x : EF) : EF.sub x .nan = .nan := by
  cases x <;> rfl

theorem EF.nan_div (y : EF) : EF.div .nan y = .nan := by
  cases y <;> rfl

theorem EF.ninf_mul_fin_pos {b : ℚ} (hb : 0 < b) : EF.mul .ninf (.fin b) = .ninf := by
  simp [EF.mul, hb]

theorem EF.pinf_mul_fin_pos {b : ℚ} (hb : 0 < b) : EF.mul .pinf (.fin b) = .pinf := by
  simp [EF.mul, hb]

theorem EF.add_ninf (x : EF) : EF.add x .ninf = .nan ∨ EF.add x .ninf = .ninf := by
  cases x
  · right; rfl
  · left; rfl
  · right; rfl
  · left; rfl

theorem EF.add_ninf_pinf : EF.add .ninf .pinf = .nan := rfl

theorem EF.foldl_add_from_nan (g : Nat → EF) (l : List Nat) :
    l.foldl (fun s j => EF.add s (g j)) .nan = .nan := by
  induction l with
  | nil => rfl
  | cons a l ih => simpa [List.foldl, EF.nan_add] using ih

/-! ## The placeholder inference degenerates to the constant 1.0 -/

theorem enc_weight_pos (i j : Nat) : 0 < enc_weight i j := by
  unfold enc_weight
  positivity

theorem normalized_feature_12 (f : feature_vector_t) :
    normalized_feature f 12 = .nan ∨ normalized_feature f 12 = .ninf := by
  cases h : f.fw_ok with
  | true =>
      left
      simp [normalized_feature, input_feature, feature_means, feature_stds, h,
            EF.sub, EF.neg, EF.add, EF.div]
  | false =>
      right
      simp [normalized_feature, input_feature, feature_means, feature_stds, h,
            EF.sub, EF.neg, EF.add, EF.div]

theorem normalized_feature_13 (f : feature_vector_t) :
    normalized_feature f 13 = .nan ∨ normalized_feature f 13 = .pinf := by
  cases h : f.tamper with
  | true =>
      right
      simp [normalized_feature, input_feature, feature_means, feature_stds, h,
            EF.sub, EF.neg, EF.add, EF.div]
  | false =>
      left
      simp [normalized_feature, input_feature, feature_means, feature_stds, h,
            EF.sub, EF.neg, EF.add, EF.div]

theorem encoded_eq_nan (f : feature_vector_t) (i : Nat) : encoded f i = .nan := by
  have hsplit : List.range 15 = List.range 12 ++ [12, 13, 14] := by decide
  unfold encoded
  rw [hsplit, List.foldl_append]
  set s := (List.range 12).foldl
    (fun s j => EF.add s (EF.mul (normalized_feature f j) (.fin (enc_weight i j))))
    (EF.fin 0) with hs
  simp only [List.foldl]
  rcases normalized_feature_12 f with h12 | h12 <;> rw [h12]
  · rw [EF.nan_mul, EF.add_nan, EF.nan_add, EF.nan_add]
  · rw [EF.ninf_mul_fin_pos (enc_weight_pos i 12)]
    rcases EF.add_ninf s with h | h <;> rw [h]
    · rw [EF.nan_add, EF.nan_add]
    · rcases normalized_feature_13 f with h13 | h13 <;> rw [h13]
      · rw [EF.nan_mul, EF.add_nan, EF.nan_add]
      · rw [EF.pinf_mul_fin_pos (enc_weight_pos i 13), EF.add_ninf_pinf, EF.nan_add]

theorem decoded_eq_nan (f : feature_vector_t) (i : Nat) : decoded f i = .nan := by
  have hsplit : List.range 8 = 0 :: [1, 2, 3, 4, 5, 6, 7] := by decide
  unfold decoded
  rw [hsplit]
  simp only [List.foldl]
  simp [encoded_eq_nan, EF.nan_mul, EF.add_nan, EF.nan_add]

theorem mse_value_eq_nan (f : feature_vector_t) : mse_value f = .nan := by
  have hsplit : List.range 15 = 0 :: [1, 2, 3, 4, 5, 6, 7, 8, 9, 10, 11, 12, 13, 14] := by
    decide
  unfold mse_value
  rw [hsplit]
  simp only [List.foldl]
  simp [decoded_eq_nan, EF.sub_nan, EF.mul_nan, EF.add_nan, EF.nan_add, EF.nan_div]

/-- Because `feature_stds[12]` and `feature_stds[13]` are 0, the normalized
features at those indices are NaN or infinite for every vector; NaN then
propagates through the whole placeholder autoencoder, and `fminf(NaN, 1.0f)`
returns `1.0f`, so the returned reconstruction error is 1.0 for every input
vector whatsoever. -/
theorem tflite_micro_inference_eq_one (f : feature_vector_t) :
    tflite_micro_inference f = .fin 1 := by
  unfold tflite_micro_inference
  rw [mse_value_eq_nan, EF.nan_div]
  rfl

/-! ## Concrete inputs used by counterexamples and witnesses -/

/-- A nominal feature vector (the calibration point of `feature_means`). -/
def fvNominal : feature_vector_t :=
  { v_rms := .fin 230, i_rms := .fin 15, p_kw := .fin (7/2), pf := .fin (19/20),
    thd_v := .fin (5/2), thd_i := .fin (7/2), dvdt := .fin 0, didt := .fin 0,
    ocpp_rate := .fin 5, remote_stop_cnt := 0, malformed := 0, out_of_seq := 0,
    fw_ok := true, tamper := false, temp_c := .fin 25 }

/-- The nominal vector with the tamper switch asserted. -/
def fvTamper : feature_vector_t := { fvNominal with tamper := true }

/-- A vector firing all three protocol rule triggers at once: a remote-stop
burst (4 > 3), a malformed burst (3 > 2), and the THD/OCPP-rate masking
correlation (thd_i 4 > 3 while ocpp_rate 1 < 3), with tamper clear and
firmware integrity OK. -/
def fvTriple : feature_vector_t :=
  { fvNominal with remote_stop_cnt := 4, malformed := 3,
                   thd_i := .fin 4, ocpp_rate := .fin 1 }

/-- The nominal vector with remote_stop_cnt = 2 (below the burst threshold). -/
def fvTwo : feature_vector_t := { fvNominal with remote_stop_cnt := 2 }

/-- The nominal vector with a NaN voltage field. -/
def fvNaN : feature_vector_t := { fvNominal with v_rms := .nan }

/-- A relay-controller state in an active emergency stop that satisfies every
interlock the claim lists: the 5 s cooldown has long elapsed by time 100000
and the fault count (0) is under the limit. -/
def rcLocked : RC :=
  { RC.initial with currentState := .emergency_stop, emergencyStopActive := true,
                    lastEmergencyStopTime := 0 }

/-! ## Claims -/

/-- C1, counterexample: with the tamper override active and `ml_score = 0`
(a value inside the spec's contractual range [0,1] for `ml_score`), the
combined score is `0.6·1 + 0.4·0 = 0.6 < 0.8`, so the scorer emits a
Warning alert, not the Critical alert the claim promises regardless of the
`ml_score` value. -/
theorem C1_counterexample :
    Option.map alert_t.level (scoreFusion fvTamper (.fin 0)).2.2 = some .warning ∧
    alert_level_t.warning ≠ alert_level_t.critical := by
  have hr : rule_score fvTamper = 1 := by
    unfold rule_score
    simp [fvTamper, fvNominal]
  have hcomb : combined_score 1 (.fin 0) = .fin (3/5) := by
    simp only [combined_score, EF.mul, EF.add, RULE_SCORE_WEIGHT, ML_SCORE_WEIGHT]
    norm_num
  have hbw : EF.bge (.fin (3/5)) (.fin WARNING_THRESHOLD) = true := by
    simp only [EF.bge, EF.ble, WARNING_THRESHOLD, decide_eq_true_eq]
    norm_num
  have hbc : EF.bge (.fin (3/5)) (.fin CRITICAL_THRESHOLD) = false := by
    simp only [EF.bge, EF.ble, CRITICAL_THRESHOLD, decide_eq_false_iff_not]
    norm_num
  refine ⟨?_, by decide⟩
  simp [scoreFusion, hr, hcomb, emit_alert, hbw, hbc]

/-- C1, amended claim: with `tamper` set or `fw_ok` clear, the rule score is
forced to 1.0 and an alert is always emitted (the combined score is at least
0.6 ≥ warning threshold), but its level is Critical exactly when
`ml_score ≥ 0.5` (so that `0.6 + 0.4·ml_score ≥ 0.8`) and only Warning
below that.  In the build as it stands the placeholder inference returns
1.0 for every vector (see C10), so the alert the task actually emits under
the override is always Critical, with combined score exactly 1.0. -/
theorem C1_amended (f : feature_vector_t) (m : ℚ) (h0 : 0 ≤ m)
    (hov : f.tamper = true ∨ f.fw_ok = false) :
    (scoreFusion f (.fin m)).1 = 1 ∧
    ((scoreFusion f (.fin m)).2.2).isSome = true ∧
    (Option.map alert_t.level (scoreFusion f (.fin m)).2.2 = some .critical ↔ 1/2 ≤ m) ∧
    ml_anomaly_step true f = some (1, .fin 1, some { level := .critical, score := .fin 1 }) := by
  have hr : rule_score f = 1 := by
    unfold rule_score
    rcases hov with h | h <;> simp [h]
  have hcomb : combined_score 1 (.fin m) = .fin (3/5 + 2/5 * m) := by
    simp only [combined_score, EF.mul, EF.add, RULE_SCORE_WEIGHT, ML_SCORE_WEIGHT]
    norm_num
  have hbw : EF.bge (.fin (3/5 + 2/5 * m)) (.fin WARNING_THRESHOLD) = true := by
    simp only [EF.bge, EF.ble, WARNING_THRESHOLD, decide_eq_true_eq]
    linarith
  refine ⟨by simp [scoreFusion, hr], ?_, ?_, ?_⟩
  · simp [scoreFusion, hr, hcomb, emit_alert, hbw]
  · by_cases hc : (4/5 : ℚ) ≤ 3/5 + 2/5 * m
    · have hbc : EF.bge (.fin (3/5 + 2/5 * m)) (.fin CRITICAL_THRESHOLD) = true := by
        simp only [EF.bge, EF.ble, CRITICAL_THRESHOLD, decide_eq_true_eq]
        exact hc
      simp only [scoreFusion, hr, hcomb, emit_alert, hbw, hbc, if_true, Option.map_some]
      constructor
      · intro _; linarith
      · intro _; rfl
    · have hbc : EF.bge (.fin (3/5 + 2/5 * m)) (.fin CRITICAL_THRESHOLD) = false := by
        simp only [EF.bge, EF.ble, CRITICAL_THRESHOLD, decide_eq_false_iff_not]
        exact hc
      simp only [scoreFusion, hr, hcomb, emit_alert, hbw, hbc, if_true, if_false,
                 Bool.false_eq_true, Option.map_some]
      constructor
      · intro h; exact absurd h (by simp)
      · intro h; exact absurd (by linarith : (4/5 : ℚ) ≤ 3/5 + 2/5 * m) hc
  · have h1 : combined_score 1 (.fin 1) = .fin 1 := by
      simp only [combined_score, EF.mul, EF.add, RULE_SCORE_WEIGHT, ML_SCORE_WEIGHT]
      norm_num
    have hbw1 : EF.bge (.fin 1) (.fin WARNING_THRESHOLD) = true := by
      simp only [EF.bge, EF.ble, WARNING_THRESHOLD, decide_eq_true_eq]
      norm_num
    have hbc1 : EF.bge (.fin 1) (.fin CRITICAL_THRESHOLD) = true := by
      simp only [EF.bge, EF.ble, CRITICAL_THRESHOLD, decide_eq_true_eq]
      norm_num
    simp [ml_anomaly_step, tflite_micro_inference_eq_one, scoreFusion, hr, h1,
          emit_alert, hbw1, hbc1]

/-- C1, witness for the amended claim at a concrete input: the tamper vector
with `ml_score = 1`. -/
theorem C1_amended_witness :
    (scoreFusion fvTamper (.fin 1)).1 = 1 ∧
    ((scoreFusion fvTamper (.fin 1)).2.2).isSome = true ∧
    (Option.map alert_t.level (scoreFusion fvTamper (.fin 1)).2.2 = some .critical ↔
      1/2 ≤ (1 : ℚ)) ∧
    ml_anomaly_step true fvTamper = some (1, .fin 1, some { level := .critical, score := .fin 1 }) :=
  C1_amended fvTamper 1 (by norm_num) (Or.inl rfl)

/-- C2, counterexample: in `SAFETY_STATE_LOCKDOWN`, an inbound
`StartTransaction` message moves the firmware state machine to
`SAFETY_STATE_HANDSHAKE` (the `ocpp_monitor_task` switch calls
`update_safety_state` unconditionally), so Lockdown is not sticky against
protocol messages; and `resetEmergencyStop` fails even in a state meeting
every interlock the claim lists (cooldown of 5 s long elapsed by
`millis() = 100000`, fault count 0 under the limit), because
`_checkSafetyInterlocks` re-tests the still-asserted emergency-stop flag. -/
theorem C2_counterexample :
    (ocpp_monitor_step .lockdown .start_transaction).1 = .handshake ∧
    safety_state_t.handshake ≠ safety_state_t.lockdown ∧
    (RC.resetEmergencyStop rcLocked 100000).2 = false := by
  refine ⟨by decide, by decide, ?_⟩
  simp [RC.resetEmergencyStop, RC.checkSafetyInterlocks, rcLocked, RC.initial,
        FAULT_RESET_TIME_MS]

/-- C2, amended claim: Lockdown is not sticky against inbound protocol
messages — a `StartTransaction` moves any state, Lockdown included, to
Handshake.  Alerts never move the state out of Lockdown (a Warning acts
only in Charging, a Critical re-enters Lockdown), and the firmware has no
Lockdown→Idle reset path at all.  In the Arduino relay controller, the
emergency-stop reset is gated by the 5 s cooldown and the interlock check,
but it never succeeds while a stop is active (and never mutates the state):
the interlock check fails on the still-set emergency-stop flag, so
`resetEmergencyStop` returns the unchanged state together with the negation
of `emergencyStopActive`. -/
theorem C2_amended :
    (∀ s, (ocpp_monitor_step s .start_transaction).1 = .handshake) ∧
    (∀ lvl, (safety_control_step .lockdown lvl).1 = .lockdown) ∧
    (∀ (rc : RC) (now : Nat), RC.resetEmergencyStop rc now = (rc, !rc.emergencyStopActive)) := by
  refine ⟨?_, ?_, ?_⟩
  · intro s
    cases s <;> decide
  · intro lvl
    cases lvl <;> decide
  · intro rc now
    cases h : rc.emergencyStopActive with
    | false => simp [RC.resetEmergencyStop, h]
    | true =>
        by_cases hcd : now - rc.lastEmergencyStopTime < FAULT_RESET_TIME_MS
        · simp [RC.resetEmergencyStop, h, hcd]
        · simp [RC.resetEmergencyStop, RC.checkSafetyInterlocks, h, hcd]

/-- C3, counterexample: on a Critical alert received in the Charging state,
the `safety_control_task` handler performs the write of the shared
`current_safety_state` variable (to Lockdown) as its first externally
visible action and only afterwards drives the contactor GPIO, so the relay
command is not issued before the new state becomes visible; in particular
the first recorded action is the state write, not the contactor command. -/
theorem C3_counterexample :
    (safety_control_step .charging .critical).2 =
      [.write_state .lockdown, .set_contactor contactor_open_level] ∧
    (safety_control_step .charging .critical).2.head? =
      some (.write_state .lockdown) ∧
    safety_action.write_state .lockdown ≠ safety_action.set_contactor contactor_open_level := by
  refine ⟨by decide, by decide, by decide⟩

/-- C3, amended claim: a Critical alert always drives the state to Lockdown
and commands the contactor within the same (mutex-protected) handler pass,
but in the opposite order to the one claimed: the state variable is written
first (when it changes at all — `update_safety_state` skips the write when
the state is already Lockdown) and the contactor pin is driven afterwards.
Readers polling `current_safety_state` without the mutex (the UI task does)
can therefore observe Lockdown before the contactor command is issued. -/
theorem C3_amended (s : safety_state_t) :
    (safety_control_step s .critical).1 = .lockdown ∧
    (safety_control_step s .critical).2 =
      (if s = .lockdown then [] else [.write_state .lockdown]) ++
        [.set_contactor contactor_open_level] := by
  cases s <;> exact ⟨by decide, by decide⟩

/-- C4, counterexample: a feature vector with a NaN `v_rms` field is not
rejected: the scorer processes it and produces a score (the inference
validates only the model-initialized flag and non-null pointers, never the
field values). -/
theorem C4_counterexample :
    EF.isFinite fvNaN.v_rms = false ∧ (ml_anomaly_step true fvNaN).isSome = true := by
  exact ⟨rfl, rfl⟩

/-- C4, amended claim: no finiteness validation exists anywhere on the path
from the sampler to the scorer: the only condition under which a dequeued
vector is not scored is an uninitialized model (`tflite_micro_inference`
returning `ESP_ERR_INVALID_STATE`); whenever the model is ready, every
vector — including vectors with NaN or infinite fields — reaches the rule
and ML computation and produces a score. -/
theorem C4_amended (model_ready : Bool) (f : feature_vector_t) :
    (ml_anomaly_step model_ready f).isSome = model_ready := by
  cases model_ready <;> simp [ml_anomaly_step]

/-- C5: per-sample overcurrent handling in `RelayController::checkSafetyLimits`.
From any initialized controller state with no emergency stop latched and no
overcurrent already tracked, with nominal voltage (230 V, inside the
[200,250] band): a 40 A sample (above the 35 A threshold) at time `t0`
starts the overcurrent timer without tripping; a second overcurrent sample
at `t0 + grace + 1` ms trips the emergency stop (Lockdown-equivalent state
`RELAY_EMERGENCY_STOP`); whereas a second overcurrent sample at
`t0 + grace − 1` ms does not trip, and a subsequent in-range sample (20 A)
clears the detection flag and resets the overcurrent timer to 0. -/
theorem C5_overcurrent_grace (rc : RC) (t0 : Nat)
    (hinit : rc.inited = true)
    (hstop : rc.emergencyStopActive = false)
    (hdet : rc.overcurrentDetected = false)
    (hen : rc.safetyLimitsEnabled = true) :
    ((rc.checkSafetyLimits 40 230 t0).emergencyStopActive = false ∧
      (rc.checkSafetyLimits 40 230 t0).overcurrentDetected = true ∧
      (rc.checkSafetyLimits 40 230 t0).overcurrentStartTime = t0) ∧
    (((rc.checkSafetyLimits 40 230 t0).checkSafetyLimits 40 230 (t0 + OVERCURRENT_TIME_MS + 1)).emergencyStopActive = true ∧
      ((rc.checkSafetyLimits 40 230 t0).checkSafetyLimits 40 230 (t0 + OVERCURRENT_TIME_MS + 1)).currentState = .emergency_stop) ∧
    (((rc.checkSafetyLimits 40 230 t0).checkSafetyLimits 40 230 (t0 + (OVERCURRENT_TIME_MS - 1))).emergencyStopActive = false ∧
      (((rc.checkSafetyLimits 40 230 t0).checkSafetyLimits 40 230 (t0 + (OVERCURRENT_TIME_MS - 1))).checkSafetyLimits 20 230 (t0 + OVERCURRENT_TIME_MS)).emergencyStopActive = false ∧
      (((rc.checkSafetyLimits 40 230 t0).checkSafetyLimits 40 230 (t0 + (OVERCURRENT_TIME_MS - 1))).checkSafetyLimits 20 230 (t0 + OVERCURRENT_TIME_MS)).overcurrentDetected = false ∧
      (((rc.checkSafetyLimits 40 230 t0).checkSafetyLimits 40 230 (t0 + (OVERCURRENT_TIME_MS - 1))).checkSafetyLimits 20 230 (t0 + OVERCURRENT_TIME_MS)).overcurrentStartTime = 0) := by
  have hc40 : (MAX_CURRENT_THRESHOLD : ℚ) < 40 := by norm_num [MAX_CURRENT_THRESHOLD]
  have hc20 : ¬((MAX_CURRENT_THRESHOLD : ℚ) < 20) := by norm_num [MAX_CURRENT_THRESHOLD]
  have hv1 : ¬((230 : ℚ) < VOLTAGE_MIN_THRESHOLD) := by norm_num [VOLTAGE_MIN_THRESHOLD]
  have hv2 : ¬((VOLTAGE_MAX_THRESHOLD : ℚ) < 230) := by norm_num [VOLTAGE_MAX_THRESHOLD]
  have hs1 : rc.checkSafetyLimits 40 230 t0 =
      { rc with lastCurrent := 40, lastVoltage := 230,
                overcurrentDetected := true, overcurrentStartTime := t0 } := by
    simp [RC.checkSafetyLimits, RC.handleOvercurrent, hen, hdet, hc40, hv1, hv2,
          OVERCURRENT_TIME_MS]
  refine ⟨?_, ?_, ?_⟩
  · rw [hs1]
    exact ⟨hstop, rfl, rfl⟩
  · have harith : OVERCURRENT_TIME_MS < t0 + OVERCURRENT_TIME_MS + 1 - t0 := by
      omega
    rw [hs1]
    constructor <;>
      simp [RC.checkSafetyLimits, RC.handleOvercurrent, RC.emergencyStop, RC.logFault,
            hen, hinit, hc40, hv1, hv2, harith]
  · have harith2 : ¬(OVERCURRENT_TIME_MS < t0 + (OVERCURRENT_TIME_MS - 1) - t0) := by
      omega
    have hs2 : (rc.checkSafetyLimits 40 230 t0).checkSafetyLimits 40 230
        (t0 + (OVERCURRENT_TIME_MS - 1)) =
        { rc with lastCurrent := 40, lastVoltage := 230,
                  overcurrentDetected := true, overcurrentStartTime := t0 } := by
      rw [hs1]
      simp [RC.checkSafetyLimits, RC.handleOvercurrent, hen, hc40, hv1, hv2, harith2]
    rw [hs2]
    refine ⟨hstop, ?_, ?_, ?_⟩ <;>
      simp [RC.checkSafetyLimits, RC.handleOvercurrent, hen, hstop, hc20, hv1, hv2]

/-- C5, witness: the theorem applied to the freshly initialized controller at
`t0 = 0`. -/
theorem C5_overcurrent_grace_witness :
    ((RC.initial.checkSafetyLimits 40 230 0).emergencyStopActive = false ∧
      (RC.initial.checkSafetyLimits 40 230 0).overcurrentDetected = true ∧
      (RC.initial.checkSafetyLimits 40 230 0).overcurrentStartTime = 0) ∧
    (((RC.initial.checkSafetyLimits 40 230 0).checkSafetyLimits 40 230 (0 + OVERCURRENT_TIME_MS + 1)).emergencyStopActive = true ∧
      ((RC.initial.checkSafetyLimits 40 230 0).checkSafetyLimits 40 230 (0 + OVERCURRENT_TIME_MS + 1)).currentState = .emergency_stop) ∧
    (((RC.initial.checkSafetyLimits 40 230 0).checkSafetyLimits 40 230 (0 + (OVERCURRENT_TIME_MS - 1))).emergencyStopActive = false ∧
      (((RC.initial.checkSafetyLimits 40 230 0).checkSafetyLimits 40 230 (0 + (OVERCURRENT_TIME_MS - 1))).checkSafetyLimits 20 230 (0 + OVERCURRENT_TIME_MS)).emergencyStopActive = false ∧
      (((RC.initial.checkSafetyLimits 40 230 0).checkSafetyLimits 40 230 (0 + (OVERCURRENT_TIME_MS - 1))).checkSafetyLimits 20 230 (0 + OVERCURRENT_TIME_MS)).overcurrentDetected = false ∧
      (((RC.initial.checkSafetyLimits 40 230 0).checkSafetyLimits 40 230 (0 + (OVERCURRENT_TIME_MS - 1))).checkSafetyLimits 20 230 (0 + OVERCURRENT_TIME_MS)).overcurrentStartTime = 0) :=
  C5_overcurrent_grace RC.initial 0 rfl rfl rfl rfl

/-- C6, counterexample: on a vector firing the remote-stop (+0.6),
malformed (+0.4) and masking-correlation (+0.5) triggers together, with no
tamper override, the task-based scorer's `rule_score` is 1.5 — there is no
clamp to [0,1] in `ml_anomaly_task`, so the rule score used in fusion does
exceed 1.0. -/
theorem C6_counterexample :
    (scoreFusion fvTriple (.fin 0)).1 = 3/2 ∧ ¬((3 : ℚ)/2 ≤ 1) := by
  constructor
  · show rule_score fvTriple = 3/2
    unfold rule_score
    simp only [fvTriple, fvNominal, REMOTE_STOP_BURST_THRESHOLD, MALFORMED_BURST_THRESHOLD,
               BASELINE_THD_I, THD_I_MULTIPLIER_THRESHOLD, BASELINE_OCPP_RATE,
               OCPP_RATE_THRESHOLD, EF.bgt, EF.blt]
    norm_num
  · norm_num

/-- C6, amended claim: the task-based scorer accumulates its rule
contributions without any clamping step, so `rule_score` can exceed 1.0
(it reaches 1.5 when the three protocol triggers fire together, and 1.5 is
also its least upper bound); only the Arduino variant's electrical rule
score (`MLModel::_ruleBasedThreatScore`) is clamped and never exceeds 1.0. -/
theorem C6_amended :
    (∀ (f : feature_vector_t) (mlS : EF), (scoreFusion f mlS).1 ≤ 3/2) ∧
    (∀ c v p fr t, ruleBasedThreatScore c v p fr t ≤ 1) := by
  constructor
  · intro f mlS
    show rule_score f ≤ 3/2
    unfold rule_score
    split_ifs <;> norm_num
  · intro c v p fr t
    unfold ruleBasedThreatScore
    split_ifs <;> norm_num

/-- C8: in the task-based scorer (outside the fatal override), the
remote-stop rule contributes exactly +0.6 to `rule_score` when
`remote_stop_cnt` exceeds the burst threshold (3) and exactly 0 otherwise,
independently of every other trigger: the rule score equals the conditional
+0.6 plus the rule score of the same vector with the counter zeroed. -/
theorem C8_remote_stop_contribution (f : feature_vector_t) (mlS : EF)
    (ht : f.tamper = false) (hf : f.fw_ok = true) :
    (scoreFusion f mlS).1 =
      (if REMOTE_STOP_BURST_THRESHOLD < f.remote_stop_cnt then 3/5 else 0) +
        (scoreFusion { f with remote_stop_cnt := 0 } mlS).1 := by
  show rule_score f = _ + rule_score _
  unfold rule_score
  simp only [ht, hf, REMOTE_STOP_BURST_THRESHOLD]
  split_ifs <;> (first | omega | ring1 | simp_all)

/-- C8, witness: `remote_stop_cnt = 4` contributes exactly +0.6 and
`remote_stop_cnt = 2` contributes exactly 0 (both with tamper clear and
firmware integrity OK). -/
theorem C8_remote_stop_contribution_witness :
    ((scoreFusion fvTriple (.fin 0)).1 =
      (if REMOTE_STOP_BURST_THRESHOLD < fvTriple.remote_stop_cnt then 3/5 else 0) +
        (scoreFusion { fvTriple with remote_stop_cnt := 0 } (.fin 0)).1) ∧
    ((scoreFusion fvTwo (.fin 0)).1 =
      (if REMOTE_STOP_BURST_THRESHOLD < fvTwo.remote_stop_cnt then 3/5 else 0) +
        (scoreFusion { fvTwo with remote_stop_cnt := 0 } (.fin 0)).1) :=
  ⟨C8_remote_stop_contribution fvTriple (.fin 0) rfl rfl,
   C8_remote_stop_contribution fvTwo (.fin 0) rfl rfl⟩

/-! ## Sequence-tracking runs -/

/-- The ids of a strictly consecutive (increment-by-one) message run
starting just after `start`. -/
def consec_ids (start n : Nat) : List Int :=
  (List.range n).map fun k => ((start + 1 + k : Nat) : Int)

/-- The ids of a run whose first message skips one sequence number and is
consecutive afterwards. -/
def skip_ids (start n : Nat) : List Int :=
  (List.range n).map fun k => ((start + 2 + k : Nat) : Int)

theorem seq_update_some (last s : Nat) (hl : last + 1 < 2 ^ 32) (hs : s < 2 ^ 32) :
    seq_update last (some (s : Int)) = (s, decide (s ≠ last + 1)) := by
  have h2 : ((2 : Int) ^ 32) = ((2 ^ 32 : Nat) : Int) := by norm_cast
  have h1 : (((s : Int) % ((2 : Int) ^ 32)).toNat) = s := by
    rw [h2, ← Int.natCast_mod, Int.toNat_natCast]
    exact Nat.mod_eq_of_lt hs
  simp only [seq_update, h1, Nat.mod_eq_of_lt hl]
  by_cases h : s = last + 1
  · simp [h]
  · simp [h]

theorem consec_ids_succ (start n : Nat) :
    consec_ids start (n + 1) = ((start + 1 : Nat) : Int) :: consec_ids (start + 1) n := by
  simp only [consec_ids, List.range_succ_eq_map, List.map_cons, List.map_map, Nat.add_zero]
  congr 1
  apply List.map_congr_left
  intro k _
  simp only [Function.comp_apply]
  congr 1
  omega

theorem skip_ids_succ (start n : Nat) :
    skip_ids start (n + 1) = ((start + 2 : Nat) : Int) :: consec_ids (start + 2) n := by
  simp only [skip_ids, consec_ids, List.range_succ_eq_map, List.map_cons, List.map_map,
             Nat.add_zero]
  congr 1
  apply List.map_congr_left
  intro k _
  simp only [Function.comp_apply]
  congr 1
  omega

theorem seq_run_acc (ids : List Int) : ∀ (l c : Nat),
    ids.foldl
      (fun p s =>
        let r := seq_update p.1 (some s)
        (r.1, p.2 + if r.2 then 1 else 0)) (l, c) =
      ((seq_run l ids).1, c + (seq_run l ids).2) := by
  induction ids with
  | nil =>
      intro l c
      simp [seq_run]
  | cons a ids ih =>
      intro l c
      simp only [seq_run, List.foldl] at ih ⊢
      rw [ih ((seq_update l (some a)).1) (c + if (seq_update l (some a)).2 = true then 1 else 0),
          ih ((seq_update l (some a)).1) (0 + if (seq_update l (some a)).2 = true then 1 else 0)]
      simp only [Prod.mk.injEq]
      refine ⟨by trivial, by omega⟩

theorem seq_run_consec (n : Nat) : ∀ start, start + n < 2 ^ 32 →
    seq_run start (consec_ids start n) = (start + n, 0) := by
  induction n with
  | zero =>
      intro start _
      simp [seq_run, consec_ids]
  | succ n ih =>
      intro start h
      rw [consec_ids_succ]
      unfold seq_run
      simp only [List.foldl]
      rw [seq_update_some start (start + 1) (by omega) (by omega)]
      have hne : (decide (start + 1 ≠ start + 1)) = false := by simp
      rw [hne]
      simp only [Bool.false_eq_true, if_false, Nat.add_zero]
      have hrec := ih (start + 1) (by omega)
      unfold seq_run at hrec
      rw [hrec]
      simp only [Prod.mk.injEq]
      refine ⟨by omega, by trivial⟩

theorem seq_run_skip (last n : Nat) (h : last + n + 2 < 2 ^ 32) :
    seq_run last (skip_ids last (n + 1)) = (last + n + 2, 1) := by
  rw [skip_ids_succ]
  unfold seq_run
  simp only [List.foldl]
  rw [seq_update_some last (last + 2) (by omega) (by omega)]
  have hne : (decide (last + 2 ≠ last + 1)) = true := by
    rw [decide_eq_true_eq]
    omega
  rw [hne]
  simp only [if_true, Nat.zero_add]
  rw [seq_run_acc]
  have hrec := seq_run_consec n (last + 2) (by omega)
  rw [hrec]
  simp only [Prod.mk.injEq]
  refine ⟨by omega, by trivial⟩

/-- C7: the sequence-tracking logic of `ocpp_websocket_event_handler`,
modelled on the values the code manifestly intends to read (the C code
performs this read through a use-after-free, see `seq_update`): for a
message carrying numeric sequence number `s`, `last_sequence` is updated to
`s` unconditionally and the out-of-sequence flag (and counter increment)
fires iff `s ≠ last_sequence + 1`; a strictly consecutive run of `n`
messages increments the counter 0 times; a run whose first message skips
one sequence number increments it exactly once. -/
theorem C7_sequence_tracking (last s n : Nat)
    (hs : s < 2 ^ 32) (hb : last + n + 2 < 2 ^ 32) :
    ((seq_update last (some (s : Int))).1 = s ∧
      ((seq_update last (some (s : Int))).2 = true ↔ s ≠ last + 1)) ∧
    seq_run last (consec_ids last n) = (last + n, 0) ∧
    seq_run last (skip_ids last (n + 1)) = (last + n + 2, 1) := by
  have hupd := seq_update_some last s (by omega) hs
  refine ⟨⟨?_, ?_⟩, ?_, ?_⟩
  · rw [hupd]
  · rw [hupd]
    simp
  · exact seq_run_consec n last (by omega)
  · exact seq_run_skip last n hb

/-- C7, witness: from `last_sequence = 5`, the message id 9 is flagged (it
is not 6), a consecutive run of 3 messages is never flagged, and a run of 4
messages starting with one skipped id is flagged exactly once. -/
theorem C7_sequence_tracking_witness :
    (((seq_update 5 (some ((9 : Nat) : Int))).1 = 9 ∧
      ((seq_update 5 (some ((9 : Nat) : Int))).2 = true ↔ (9 : Nat) ≠ 5 + 1)) ∧
    seq_run 5 (consec_ids 5 3) = (5 + 3, 0) ∧
    seq_run 5 (skip_ids 5 (3 + 1)) = (5 + 3 + 2, 1)) :=
  C7_sequence_tracking 5 9 3 (by norm_num) (by norm_num)

/-- C9, counterexample: a frame whose payload fails to parse produces a
message whose `type` field is the zero-initialized value — which is
`OCPP_MSG_START_TRANSACTION` (enum value 0), not `OCPP_MSG_UNKNOWN` — even
though `malformed` is correctly set. -/
theorem C9_counterexample :
    (handle_frame "garbage" .unparsable 42 ⟨0, 0, 0, 0⟩ 7).1.type = .start_transaction ∧
    ocpp_msg_type_t.start_transaction ≠ ocpp_msg_type_t.unknown ∧
    (handle_frame "garbage" .unparsable 42 ⟨0, 0, 0, 0⟩ 7).1.malformed = true := by
  refine ⟨rfl, by decide, rfl⟩

/-- C9, amended claim: an unparsable frame always produces a message that is
marked `malformed = true`, carries the event timestamp, increments the
malformed counter, and leaves the sequence tracker untouched — the frame is
neither dropped before the queue nor does it abort the connection (the
handler always constructs and forwards the message and returns `ESP_OK`) —
but its `type` field is `OCPP_MSG_START_TRANSACTION` (the zero
initialization value of the struct), not `OCPP_MSG_UNKNOWN`. -/
theorem C9_amended (raw : String) (ts : Nat) (m : ocpp_metrics_t) (lastSeq : Nat) :
    (handle_frame raw .unparsable ts m lastSeq).1.malformed = true ∧
    (handle_frame raw .unparsable ts m lastSeq).1.timestamp = ts ∧
    (handle_frame raw .unparsable ts m lastSeq).2.1.malformed_count = m.malformed_count + 1 ∧
    (handle_frame raw .unparsable ts m lastSeq).1.type = .start_transaction ∧
    (handle_frame raw .unparsable ts m lastSeq).1.payload = raw ∧
    (handle_frame raw .unparsable ts m lastSeq).2.2 = lastSeq := by
  refine ⟨rfl, rfl, rfl, rfl, rfl, rfl⟩

/-- C10, counterexample: the stored standard deviation for feature 12
(`fw_ok`) is the literal 0, and standardizing the nominal vector divides by
it — the normalized feature is non-finite (NaN), so the standardization is
not free of division by zero. -/
theorem C10_counterexample :
    feature_stds 12 = 0 ∧ EF.isFinite (normalized_feature fvNominal 12) = false := by
  refine ⟨rfl, ?_⟩
  rcases normalized_feature_12 fvNominal with h | h <;> rw [h] <;> rfl

/-- C10, amended claim: `feature_stds` is zero at indices 12 (`fw_ok`) and
13 (`tamper`), so for every vector the per-feature standardization divides
by zero there and the normalized features 12 and 13 are never finite
(NaN or ±infinity, depending on the flag values).  The NaN produced then
propagates through the whole placeholder autoencoder, and because
`fminf(NaN, 1.0f)` returns its second argument, the reconstruction error
returned by `tflite_micro_inference` is the constant 1.0 — numerically in
[0,1], but independent of the input. -/
theorem C10_amended (f : feature_vector_t) :
    feature_stds 12 = 0 ∧ feature_stds 13 = 0 ∧
    EF.isFinite (normalized_feature f 12) = false ∧
    EF.isFinite (normalized_feature f 13) = false ∧
    tflite_micro_inference f = .fin 1 := by
  refine ⟨rfl, rfl, ?_, ?_, tflite_micro_inference_eq_one f⟩
  · rcases normalized_feature_12 f with h | h <;> rw [h] <;> rfl
  · rcases normalized_feature_13 f with h | h <;> rw [h] <;> rfl
